import Mathlib

/-!
Verification development for the y-balance-game repository
(`src/sensors.py` and `src/main.py`).

Conventions of the shallow embedding:
* Python floats are modelled as exact rationals (`ℚ`); none of the verified
  claims depends on floating-point rounding.
* Wall-clock instants (`time.time()`) are passed in explicitly as `now : ℚ`.
* Python's builtin `float(str)` parser is not re-implemented: it is an
  explicit parameter `pfloat : String → Option ℚ` (`none` models a raised
  `ValueError`).  "numeric value" in the claims means `pfloat v = some x`.
* The two dictionaries `self.dist` / `self.last_update` of `LaserArray`
  are modelled as total functions `String → Option ℚ`; `dict.get` on a
  missing key and a stored `None` both read back as `none`, and
  `d[sid] = x` is a pointwise functional update (which, as in Python,
  also works for keys outside `{"1","2","3"}`).
-/

namespace YBalance

/-! ### Line protocol decoding (sensors.py, `_reader`, lines 54–63) -/

/-- Splitting a character list at the first `','`, keeping the remainder
(with any later commas) intact.  Models Python's `line.split(",", 1)`. -/
def splitCommaChars : List Char → List Char × List Char
  | [] => ([], [])
  | c :: cs =>
    if c = ',' then ([], cs)
    else
      let p := splitCommaChars cs
      (c :: p.1, p.2)

/-- Model of `line.split(",", 1)` (only reached when the line contains a
comma, in which case Python returns exactly two pieces). -/
def splitFirstComma (s : String) : String × String :=
  let p := splitCommaChars s.data
  (String.mk p.1, String.mk p.2)

/-- Characters removed by Python's `str.strip()` (whitespace). -/
def isPyWs (c : Char) : Bool := c.isWhitespace

/-- Dropping leading whitespace from a character list. -/
def dropLeadingWs : List Char → List Char
  | [] => []
  | c :: cs => if isPyWs c then dropLeadingWs cs else c :: cs

/-- Model of Python's `str.strip()`: whitespace removed from both ends. -/
def pyStrip (s : String) : String :=
  String.mk ((dropLeadingWs (dropLeadingWs s.data).reverse).reverse)

/-! ### The `LaserArray` latest-value table (sensors.py) -/

/-- Mutable state of a `LaserArray`: the `self.dist` and `self.last_update`
dictionaries, keyed by the sensor-id string. -/
structure LaserState where
  dist : String → Option ℚ
  last_update : String → Option ℚ

/-- State after `__init__` (lines 32–33): `{"1": None, "2": None, "3": None}`;
a missing key and a stored `None` are both observed as `none` by `dict.get`. -/
def initLaser : LaserState := ⟨fun _ => none, fun _ => none⟩

/-- One iteration of the `_reader` background loop (lines 54–63) on an
already-decoded line `raw`, at wall-clock time `now`:
strip the line; skip it if it is empty or has no comma; split at the first
comma; if the value parses as a float, store `cm * 10` and the timestamp
under the id string (any id string, as the source never validates it). -/
def ingest (pfloat : String → Option ℚ) (st : LaserState) (raw : String)
    (now : ℚ) : LaserState :=
  let line := pyStrip raw
  if line = "" ∨ line.data.contains ',' = false then st
  else
    let p := splitFirstComma line
    match pfloat p.2 with
    | none => st
    | some cm =>
      { dist := fun k => if k = p.1 then some (cm * 10) else st.dist k,
        last_update := fun k => if k = p.1 then some now else st.last_update k }

/-- Model of `read_distance(idx, timeout=2.0)` (lines 65–78): look up key
`str(idx + 1)`; if both the value and its timestamp are present and the
timestamp is older than `timeout`, return `None`; otherwise return the
stored value (which is `None` when nothing was ever stored). -/
def read_distance (st : LaserState) (idx : ℤ) (now timeout : ℚ) : Option ℚ :=
  let sid := toString (idx + 1)
  match st.dist sid, st.last_update sid with
  | some v, some l => if now - l > timeout then none else some v
  | v, _ => v

/-- Default staleness timeout of `read_distance` (2.0 seconds). -/
def default_timeout : ℚ := 2

/-! ### Game state (main.py)

The flat module-level variables mutated by `reset_game`, `apply_chart_values`
and `draw_game` (`max_mm`, `TOLERANCE`, `HOLD_TIME`, `DIFFICULTY`, `stage`,
`targets`, `unlocked`, `lock_start`, `locked_dist`, `timer_start`,
`elapsed_time`, `score`, `final_beat`, `smooth_mm`) are gathered into one
record.  `confetti` and the pixel-scale `PX_PER_MM` are rendering-only and
omitted.  Note that the source's list `unlocked` is the per-sensor *lock*
flag (`unlocked[i] == True` means sensor `i` has locked onto its target). -/

structure GameState where
  max_mm : ℚ
  tolerance : ℚ
  hold_time : ℚ
  difficulty : ℚ
  stage : ℕ
  targets : Fin 3 → ℚ
  unlocked : Fin 3 → Bool
  lock_start : Fin 3 → Option ℚ
  locked_dist : Fin 3 → Option ℚ
  timer_start : Option ℚ
  elapsed_time : ℚ
  score : ℤ
  final_beat : Bool
  smooth_mm : Fin 3 → ℚ

/-- Smoothing rate constant `alpha = 10.0` (main.py line 88). -/
def alpha : ℚ := 10

/-- Number of stages, `max_stage = 3` (main.py line 111). -/
def max_stage : ℕ := 3

/-- Model of `reset_game(stage_val, start_timer)` (main.py lines 99–110).
The three `random.uniform(0, max_mm)` draws are passed in as `newTargets`.
Note which variables the source touches: `smooth_mm` (and the config
globals) are *not* among them. -/
def reset_game (st : GameState) (newTargets : Fin 3 → ℚ) (now : ℚ)
    (stage_val : ℕ) (start_timer : Bool) : GameState :=
  { st with
    stage := stage_val,
    targets := newTargets,
    unlocked := fun _ => false,
    lock_start := fun _ => none,
    locked_dist := fun _ => none,
    timer_start := if start_timer then some now else none,
    elapsed_time := 0,
    score := 0,
    final_beat := false }

/-- One loop iteration of `draw_game` for sensor `i` (main.py lines
171–185), given the sensor's enabled flag and the result of
`lasers.read_distance(i)` for this frame.  Returns the updated state and
this sensor's contribution to `all_unlocked` (the source instead starts
`all_unlocked = True` and assigns `False` in the three skip/unlocked
branches; the conjunction of the per-sensor contributions is the same
value). -/
def sensor_step (st : GameState) (i : Fin 3) (enabled : Bool)
    (reading : Option ℚ) (dt now : ℚ) : GameState × Bool :=
  if enabled = false then (st, false)
  else
    match reading with
    | none => (st, false)
    | some raw0 =>
      let raw_mm := min (max raw0 0) st.max_mm
      let st1 := { st with
        smooth_mm := Function.update st.smooth_mm i
          (st.smooth_mm i + (raw_mm - st.smooth_mm i) * min 1 (alpha * dt)) }
      let st2 :=
        if st1.unlocked i = false then
          if |raw_mm - st1.targets i| ≤ st1.tolerance then
            match st1.lock_start i with
            | none => { st1 with lock_start := Function.update st1.lock_start i (some now) }
            | some t0 =>
              if now - t0 ≥ st1.hold_time then
                { st1 with unlocked := Function.update st1.unlocked i true }
              else st1
          else { st1 with lock_start := Function.update st1.lock_start i none }
        else st1
      let contrib := st2.unlocked i
      let st3 :=
        if st2.unlocked i = true ∧ st2.locked_dist i = none then
          { st2 with locked_dist := Function.update st2.locked_dist i (some raw_mm) }
        else st2
      (st3, contrib)

/-- Model of the state-machine part of `draw_game(dt)` (main.py lines
166–186): the three sensors are processed in order 0, 1, 2 and the
returned Bool is `all_unlocked`. -/
def draw_game (st : GameState) (enabled : Fin 3 → Bool)
    (readings : Fin 3 → Option ℚ) (dt now : ℚ) : GameState × Bool :=
  let r0 := sensor_step st 0 (enabled 0) (readings 0) dt now
  let r1 := sensor_step r0.1 1 (enabled 1) (readings 1) dt now
  let r2 := sensor_step r1.1 2 (enabled 2) (readings 2) dt now
  (r2.1, r0.2 && r1.2 && r2.2)

/-- Python's `int()` applied to a float/rational: truncation toward zero. -/
def int_trunc (q : ℚ) : ℤ := if 0 ≤ q then ⌊q⌋ else -⌊-q⌋

/-- One frame of the main loop in game mode with no key events (main.py
lines 211–224): run `draw_game`; if it reports `all_unlocked` and the final
beat has not happened, either advance the stage — `stage += 1;
reset_game(stage_val=stage, start_timer=False)` — or, on the final stage,
set `final_beat`, compute `elapsed_time = (timer_end - timer_start) if
timer_start else 0.0` (Python truthiness: both `None` and `0.0` give the
`else` branch) and `score = int((DIFFICULTY * 1000) / (elapsed_time +
0.01))`. -/
def game_frame (st : GameState) (enabled : Fin 3 → Bool)
    (readings : Fin 3 → Option ℚ) (dt now : ℚ)
    (newTargets : Fin 3 → ℚ) : GameState :=
  let r := draw_game st enabled readings dt now
  let st1 := r.1
  if st1.final_beat = false ∧ r.2 = true then
    if st1.stage < max_stage then
      reset_game st1 newTargets now (st1.stage + 1) false
    else
      let elapsed : ℚ :=
        match st1.timer_start with
        | some t0 => if t0 = 0 then 0 else now - t0
        | none => 0
      { st1 with
        final_beat := true,
        elapsed_time := elapsed,
        score := int_trunc (st1.difficulty * 1000 / (elapsed + 1 / 100)) }
  else st1

/-- Model of `apply_chart_values()` (main.py lines 116–125).  The four
text fields are parsed with `float()` one after another, each parse
*mutating its global before the next parse runs*; a `ValueError` aborts the
rest of the body (`except: pass`), keeping the mutations already made.
After the four parses, `PX_PER_MM = dist_range_px / max_mm` raises
`ZeroDivisionError` when `max_mm == 0`, which likewise skips `reset_game()`.
Otherwise `reset_game()` runs with its default arguments
(`stage_val=1`, `start_timer=False`). -/
def apply_chart_values (pfloat : String → Option ℚ) (st : GameState)
    (values : Fin 4 → String) (newTargets : Fin 3 → ℚ) (now : ℚ) : GameState :=
  match pfloat (values 0) with
  | none => st
  | some m =>
    let stA := { st with max_mm := m }
    match pfloat (values 1) with
    | none => stA
    | some tl =>
      let stB := { stA with tolerance := tl }
      match pfloat (values 2) with
      | none => stB
      | some hd =>
        let stC := { stB with hold_time := hd }
        match pfloat (values 3) with
        | none => stC
        | some df =>
          let stD := { stC with difficulty := df }
          if m = 0 then stD else reset_game stD newTargets now 1 false

/-! ### The per-sensor lock automaton (main.py lines 177–181)

For temporal reasoning about one sensor, the `unlocked[i]` / `lock_start[i]`
pair and the hold-time branch of `draw_game` are isolated into a two-field
automaton.  `lockStep` is exactly the code of lines 177–181 acting on that
pair, with `reading` the already-clamped `raw_mm` of the frame and `now`
the frame's `time.time()`.  `lockBridge` below proves that `sensor_step`
moves these two fields precisely as `lockStep` does. -/

structure LockState where
  locked : Bool
  lock_start : Option ℚ

def lockStep (target tol hold : ℚ) (st : LockState) (now reading : ℚ) :
    LockState :=
  if st.locked = false then
    if |reading - target| ≤ tol then
      match st.lock_start with
      | none => { st with lock_start := some now }
      | some t0 => if now - t0 ≥ hold then { st with locked := true } else st
    else { st with lock_start := none }
  else st

/-- Iterating `lockStep` over a list of frames, each frame a pair
`(now, reading)`. -/
def runLock (target tol hold : ℚ) (st : LockState) :
    List (ℚ × ℚ) → LockState
  | [] => st
  | f :: fs => runLock target tol hold (lockStep target tol hold st f.1 f.2) fs

/-! ### Interleaving model of the slot update (sensors.py lines 60–61 / 71–78)

`_reader` stores a decoded frame with two separate dictionary writes,
`self.dist[sid] = cm * 10` then `self.last_update[sid] = time.time()`, and
`read_distance` reads the two entries back with two separate lookups
(`self.dist.get(sid)` then `self.last_update.get(sid)`).  Under CPython's
GIL each single dictionary operation is atomic, but the thread scheduler
may interleave the four operations arbitrarily.  The model below fixes one
sensor slot holding its current `(dist, last)` entries, gives each thread a
program counter, and lets a schedule (a list of booleans, `true` = writer
moves, `false` = reader moves) drive the four atomic operations. -/

structure Slot where
  dist : Option ℚ
  last : Option ℚ

structure ConcState where
  slot : Slot
  wpc : ℕ
  rpc : ℕ
  got_dist : Option (Option ℚ)
  got_last : Option (Option ℚ)

/-- One atomic step of the writer (`_reader` lines 60–61): first store the
distance, then store the timestamp. -/
def wstep (v t : ℚ) (s : ConcState) : ConcState :=
  match s.wpc with
  | 0 => { s with slot := { s.slot with dist := some v }, wpc := 1 }
  | 1 => { s with slot := { s.slot with last := some t }, wpc := 2 }
  | _ => s

/-- One atomic step of the reader (`read_distance` lines 72–73): first load
the distance entry, then load the timestamp entry. -/
def rstep (s : ConcState) : ConcState :=
  match s.rpc with
  | 0 => { s with got_dist := some s.slot.dist, rpc := 1 }
  | 1 => { s with got_last := some s.slot.last, rpc := 2 }
  | _ => s

/-- Running a schedule: `true` lets the writer take its next atomic step,
`false` lets the reader take its next atomic step. -/
def runSched (v t : ℚ) (s : ConcState) : List Bool → ConcState
  | [] => s
  | true :: rest => runSched v t (wstep v t s) rest
  | false :: rest => runSched v t (rstep s) rest

/-- Starting configuration for one update racing one read: the slot holds
the previous entries, both threads are at their first operation, and the
reader has observed nothing yet. -/
def concStart (d0 t0 : Option ℚ) : ConcState :=
  ⟨⟨d0, t0⟩, 0, 0, none, none⟩

/-! ## Theorems -/

/-- C5: for every valid frame `"<id>,<v>"` with `id ∈ {1,2,3}` and numeric
`v`, ingestion stores `v * 10` (cm to mm) so that `read(id-1)` immediately
returns the fresh value `v * 10`; and on any state, `read` returns `none`
when no frame has ever been seen for that sensor, returns `none` when more
than `timeout` has elapsed since the last frame, and otherwise returns the
stored distance. -/
theorem C5_valid_frame_and_read_query :
    (∀ (pfloat : String → Option ℚ) (st : LaserState) (frame vstr : String)
       (id : ℤ) (v now timeout : ℚ),
       (id = 1 ∨ id = 2 ∨ id = 3) →
       pyStrip frame = frame →
       frame ≠ "" →
       frame.data.contains ',' = true →
       splitFirstComma frame = (toString id, vstr) →
       pfloat vstr = some v →
       0 ≤ timeout →
       read_distance (ingest pfloat st frame now) (id - 1) now timeout
         = some (v * 10))
    ∧ (∀ (st : LaserState) (idx : ℤ) (now timeout : ℚ),
       (st.dist (toString (idx + 1)) = none →
         read_distance st idx now timeout = none)
       ∧ (∀ v l, st.dist (toString (idx + 1)) = some v →
           st.last_update (toString (idx + 1)) = some l →
           read_distance st idx now timeout
             = if now - l > timeout then none else some v)) := by
  constructor
  · intro pfloat st frame vstr id v now timeout _hid hstrip hne hcomma hsplit hv htmo
    have hid1 : id - 1 + 1 = id := by ring
    unfold ingest
    rw [hstrip, if_neg (not_or.mpr ⟨hne, by rw [hcomma]; simp⟩), hsplit]
    simp only [hv]
    unfold read_distance
    rw [hid1]
    simp only [if_pos rfl, if_true]
    show (if now - now > timeout then none else some (v * 10)) = some (v * 10)
    rw [if_neg (show ¬ now - now > timeout by
      rw [sub_self]; exact not_lt.mpr htmo)]
  · intro st idx now timeout
    constructor
    · intro h
      simp only [read_distance, h]
    · intro v l hv hl
      simp only [read_distance, hv, hl]

/-- Parse oracle used by the concrete witnesses: the only strings it
accepts as floats are `"2.5"` and `"5"`. -/
def pfSample : String → Option ℚ :=
  fun s => if s = "2.5" then some (5 / 2) else if s = "5" then some 5 else none

theorem C5_valid_frame_and_read_query_witness :
    read_distance (ingest pfSample initLaser "1,2.5" 0) 0 0 2 = some (5 / 2 * 10)
    ∧ read_distance initLaser 0 0 2 = none := by
  refine ⟨?_, (C5_valid_frame_and_read_query.2 initLaser 0 0 2).1 rfl⟩
  exact C5_valid_frame_and_read_query.1 pfSample initLaser "1,2.5" "2.5" 1
    (5 / 2) 0 2 (Or.inl rfl) (by decide) (by decide) (by decide) (by decide)
    rfl (by norm_num)

/-- Lines that are skipped outright (empty after stripping, no comma, or a
value `float()` rejects) leave the whole table untouched. -/
theorem ingest_skip (pfloat : String → Option ℚ) (st : LaserState)
    (raw : String) (now : ℚ)
    (h : pyStrip raw = "" ∨ (pyStrip raw).data.contains ',' = false
      ∨ pfloat (splitFirstComma (pyStrip raw)).2 = none) :
    ingest pfloat st raw now = st := by
  unfold ingest
  dsimp only
  rcases h with h | h | h
  · rw [if_pos (Or.inl h)]
  · rw [if_pos (Or.inr h)]
  · split
    · rfl
    · simp only [h]

/-- Ingestion can only touch the table at the id string it decoded. -/
theorem ingest_other_key (pfloat : String → Option ℚ) (st : LaserState)
    (raw : String) (now : ℚ) (k : String)
    (h : k ≠ (splitFirstComma (pyStrip raw)).1) :
    (ingest pfloat st raw now).dist k = st.dist k
    ∧ (ingest pfloat st raw now).last_update k = st.last_update k := by
  unfold ingest
  dsimp only
  split
  · constructor <;> trivial
  · cases hp : pfloat (splitFirstComma (pyStrip raw)).2 with
    | none => simp only [hp]; constructor <;> trivial
    | some cm => simp only [hp]; exact ⟨if_neg h, if_neg h⟩

/-- The answer of `read_distance` only depends on the two table entries at
key `str(idx + 1)`. -/
theorem read_distance_congr (st st' : LaserState) (idx : ℤ) (now timeout : ℚ)
    (h1 : st'.dist (toString (idx + 1)) = st.dist (toString (idx + 1)))
    (h2 : st'.last_update (toString (idx + 1))
       = st.last_update (toString (idx + 1))) :
    read_distance st' idx now timeout = read_distance st idx now timeout := by
  unfold read_distance
  dsimp only
  rw [h1, h2]

/-- C6: a malformed frame — empty or without a comma separator, with a
value `float()` rejects, or with an id outside `{"1","2","3"}` (unknown or
empty) — changes neither stored entry of sensors 1–3, and the state
observable through `read_distance` for indices 0, 1, 2 is identical before
and after ingesting it. -/
theorem C6_malformed_frame_no_effect
    (pfloat : String → Option ℚ) (st : LaserState) (raw : String) (now : ℚ)
    (hmal : pyStrip raw = "" ∨ (pyStrip raw).data.contains ',' = false
      ∨ pfloat (splitFirstComma (pyStrip raw)).2 = none
      ∨ (splitFirstComma (pyStrip raw)).1 ∉ (["1", "2", "3"] : List String)) :
    (∀ k, k ∈ (["1", "2", "3"] : List String) →
      (ingest pfloat st raw now).dist k = st.dist k
      ∧ (ingest pfloat st raw now).last_update k = st.last_update k)
    ∧ (∀ (idx : ℤ) (now2 timeout : ℚ), idx = 0 ∨ idx = 1 ∨ idx = 2 →
      read_distance (ingest pfloat st raw now) idx now2 timeout
        = read_distance st idx now2 timeout) := by
  rcases hmal with h | h | h | h
  · rw [ingest_skip pfloat st raw now (Or.inl h)]
    exact ⟨fun _ _ => ⟨rfl, rfl⟩, fun _ _ _ _ => rfl⟩
  · rw [ingest_skip pfloat st raw now (Or.inr (Or.inl h))]
    exact ⟨fun _ _ => ⟨rfl, rfl⟩, fun _ _ _ _ => rfl⟩
  · rw [ingest_skip pfloat st raw now (Or.inr (Or.inr h))]
    exact ⟨fun _ _ => ⟨rfl, rfl⟩, fun _ _ _ _ => rfl⟩
  · constructor
    · intro k hk
      exact ingest_other_key pfloat st raw now k (fun he => h (he ▸ hk))
    · intro idx now2 timeout hidx
      have hkey : toString (idx + 1) ∈ (["1", "2", "3"] : List String) := by
        rcases hidx with rfl | rfl | rfl <;> decide
      have hne : toString (idx + 1) ≠ (splitFirstComma (pyStrip raw)).1 :=
        fun he => h (he ▸ hkey)
      obtain ⟨h1, h2⟩ := ingest_other_key pfloat st raw now (toString (idx + 1)) hne
      exact read_distance_congr st (ingest pfloat st raw now) idx now2 timeout h1 h2

theorem C6_malformed_frame_no_effect_witness :
    read_distance (ingest pfSample initLaser "9,5" 0) 0 5 2
      = read_distance initLaser 0 5 2
    ∧ (ingest pfSample initLaser "1,abc" 0).dist "1" = initLaser.dist "1" := by
  constructor
  · exact (C6_malformed_frame_no_effect pfSample initLaser "9,5" 0
      (Or.inr (Or.inr (Or.inr (by decide))))).2 0 5 2 (Or.inl rfl)
  · exact ((C6_malformed_frame_no_effect pfSample initLaser "1,abc" 0
      (Or.inr (Or.inr (Or.inl rfl)))).1 "1" (by decide)).1

/-- C10 (amended): `read_distance` is a total function — modelled directly
as such, it returns an `Option` on every integer index and every state —
and it returns `none` whenever the table holds no entry for `str(idx + 1)`;
keys outside `{"1","2","3"}` stay absent as long as only frames with ids in
`{1,2,3}` are ingested.  (It does *not* return `none` for every out-of-range
index in every reachable state: see the counterexample.) -/
theorem C10_read_out_of_range_amended :
    (∀ (st : LaserState) (idx : ℤ) (now timeout : ℚ),
      st.dist (toString (idx + 1)) = none →
      read_distance st idx now timeout = none)
    ∧ (∀ (pfloat : String → Option ℚ) (st : LaserState) (raw : String)
        (now : ℚ) (k : String),
      (splitFirstComma (pyStrip raw)).1 ∈ (["1", "2", "3"] : List String) →
      k ∉ (["1", "2", "3"] : List String) →
      (ingest pfloat st raw now).dist k = st.dist k) := by
  constructor
  · intro st idx now timeout h
    simp only [read_distance, h]
  · intro pfloat st raw now k hsid hk
    exact (ingest_other_key pfloat st raw now k (fun he => hk (he ▸ hsid))).1

theorem C10_read_out_of_range_amended_witness :
    read_distance initLaser 6 0 2 = none
    ∧ (ingest pfSample initLaser "1,2.5" 0).dist "7" = initLaser.dist "7" := by
  constructor
  · exact C10_read_out_of_range_amended.1 initLaser 6 0 2 rfl
  · exact C10_read_out_of_range_amended.2 pfSample initLaser "1,2.5" 0 "7"
      (by decide) (by decide)

/-- C10 counterexample: after the feed has ingested the (well-formed but
out-of-range) frame `"7,5"`, the out-of-range query `read_distance 6`
returns the stored value `50`, not `None`: the claim's "for every idx
outside {0, 1, 2} it returns None" fails on this reachable state. -/
theorem C10_read_out_of_range_counterexample :
    read_distance (ingest pfSample initLaser "7,5" 0) 6 0 2 = some 50 := by
  have h7 : toString (7 : ℤ) = "7" := by decide
  simp +decide [read_distance, ingest, initLaser, pyStrip, splitFirstComma,
    splitCommaChars, dropLeadingWs, isPyWs, pfSample, h7]
  norm_num

/-! ### Structural lemmas about one `draw_game` loop iteration -/

/-- A `sensor_step` never touches the configuration, stage, timer, score or
final-beat variables. -/
theorem sensor_step_scalar_fields (st : GameState) (i : Fin 3) (en : Bool)
    (r : Option ℚ) (dt now : ℚ) :
    (sensor_step st i en r dt now).1.max_mm = st.max_mm
    ∧ (sensor_step st i en r dt now).1.tolerance = st.tolerance
    ∧ (sensor_step st i en r dt now).1.hold_time = st.hold_time
    ∧ (sensor_step st i en r dt now).1.difficulty = st.difficulty
    ∧ (sensor_step st i en r dt now).1.stage = st.stage
    ∧ (sensor_step st i en r dt now).1.targets = st.targets
    ∧ (sensor_step st i en r dt now).1.timer_start = st.timer_start
    ∧ (sensor_step st i en r dt now).1.elapsed_time = st.elapsed_time
    ∧ (sensor_step st i en r dt now).1.score = st.score
    ∧ (sensor_step st i en r dt now).1.final_beat = st.final_beat := by
  cases en with
  | false => exact ⟨rfl, rfl, rfl, rfl, rfl, rfl, rfl, rfl, rfl, rfl⟩
  | true =>
    cases r with
    | none => exact ⟨rfl, rfl, rfl, rfl, rfl, rfl, rfl, rfl, rfl, rfl⟩
    | some raw0 =>
      unfold sensor_step
      dsimp only
      cases hls : st.lock_start i <;> simp only [hls] <;> split_ifs <;>
        exact ⟨rfl, rfl, rfl, rfl, rfl, rfl, rfl, rfl, rfl, rfl⟩

/-- A `sensor_step` for sensor `i` never touches the per-sensor variables
of another sensor `j`. -/
theorem sensor_step_other_sensor (st : GameState) (i : Fin 3) (en : Bool)
    (r : Option ℚ) (dt now : ℚ) (j : Fin 3) (hji : j ≠ i) :
    (sensor_step st i en r dt now).1.unlocked j = st.unlocked j
    ∧ (sensor_step st i en r dt now).1.lock_start j = st.lock_start j
    ∧ (sensor_step st i en r dt now).1.locked_dist j = st.locked_dist j
    ∧ (sensor_step st i en r dt now).1.smooth_mm j = st.smooth_mm j := by
  cases en with
  | false => exact ⟨rfl, rfl, rfl, rfl⟩
  | true =>
    cases r with
    | none => exact ⟨rfl, rfl, rfl, rfl⟩
    | some raw0 =>
      unfold sensor_step
      dsimp only
      cases hls : st.lock_start i <;> simp only [hls] <;> split_ifs <;>
        refine ⟨?_, ?_, ?_, ?_⟩ <;>
        simp [Function.update_noteq hji]

/-- The Bool a `sensor_step` contributes to `all_unlocked` is `true` exactly
when the sensor is enabled, its reading is available, and it ends the frame
locked. -/
theorem sensor_step_contrib (st : GameState) (i : Fin 3) (en : Bool)
    (r : Option ℚ) (dt now : ℚ) :
    (sensor_step st i en r dt now).2 = true ↔
      (en = true ∧ r.isSome = true
        ∧ (sensor_step st i en r dt now).1.unlocked i = true) := by
  cases en with
  | false => simp [sensor_step]
  | true =>
    cases r with
    | none => simp [sensor_step]
    | some raw0 =>
      unfold sensor_step
      dsimp only
      cases hls : st.lock_start i <;> simp only [hls] <;> split_ifs <;>
        simp_all [Function.update_same]

/-- A sensor that is already locked stays locked across a `sensor_step`. -/
theorem sensor_step_unlocked_mono (st : GameState) (i : Fin 3) (en : Bool)
    (r : Option ℚ) (dt now : ℚ) (h : st.unlocked i = true) :
    (sensor_step st i en r dt now).1.unlocked i = true := by
  cases en with
  | false => exact h
  | true =>
    cases r with
    | none => exact h
    | some raw0 =>
      unfold sensor_step
      dsimp only
      cases hls : st.lock_start i <;> simp only [hls] <;> split_ifs <;>
        simp_all [Function.update_same]

/-- Once `locked_dist[i]` holds a value, a `sensor_step` cannot change it
(line 183 assigns only when it is `None`). -/
theorem sensor_step_ld_persist (st : GameState) (i : Fin 3) (en : Bool)
    (r : Option ℚ) (dt now : ℚ) (d : ℚ) (h : st.locked_dist i = some d) :
    (sensor_step st i en r dt now).1.locked_dist i = some d := by
  cases en with
  | false => exact h
  | true =>
    cases r with
    | none => exact h
    | some raw0 =>
      unfold sensor_step
      dsimp only
      cases hls : st.lock_start i <;> simp only [hls] <;> split_ifs <;>
        simp_all [Function.update_same]

set_option maxHeartbeats 1000000 in
/-- On the frame a sensor transitions into locked, `locked_dist[i]` is
frozen to the clamped instantaneous reading of that frame (and the
transition can only happen on an enabled sensor with a fresh reading). -/
theorem sensor_step_ld_freeze (st : GameState) (i : Fin 3) (en : Bool)
    (r : Option ℚ) (dt now : ℚ)
    (h0 : st.unlocked i = false) (h1 : st.locked_dist i = none)
    (h2 : (sensor_step st i en r dt now).1.unlocked i = true) :
    en = true ∧ ∃ raw0, r = some raw0 ∧
      (sensor_step st i en r dt now).1.locked_dist i
        = some (min (max raw0 0) st.max_mm) := by
  cases en with
  | false => rw [show (sensor_step st i false r dt now).1 = st from rfl] at h2
             exact absurd h2 (by simp [h0])
  | true =>
    cases r with
    | none => rw [show (sensor_step st i true none dt now).1 = st from rfl] at h2
              exact absurd h2 (by simp [h0])
    | some raw0 =>
      refine ⟨rfl, raw0, rfl, ?_⟩
      unfold sensor_step at h2 ⊢
      dsimp only at h2 ⊢
      cases hls : st.lock_start i <;> simp only [hls] at h2 ⊢ <;>
        split_ifs at h2 ⊢ <;>
        simp_all [Function.update_same]

set_option maxHeartbeats 1000000 in
/-- A sensor that ends the frame not locked ends it with `locked_dist[i]`
still unset (when it was unset before). -/
theorem sensor_step_ld_none (st : GameState) (i : Fin 3) (en : Bool)
    (r : Option ℚ) (dt now : ℚ)
    (h1 : st.locked_dist i = none)
    (h2 : (sensor_step st i en r dt now).1.unlocked i = false) :
    (sensor_step st i en r dt now).1.locked_dist i = none := by
  cases en with
  | false => exact h1
  | true =>
    cases r with
    | none => exact h1
    | some raw0 =>
      unfold sensor_step at h2 ⊢
      dsimp only at h2 ⊢
      cases hls : st.lock_start i <;> simp only [hls] at h2 ⊢ <;>
        split_ifs at h2 ⊢ <;>
        simp_all [Function.update_same]

set_option maxHeartbeats 1000000 in
/-- Bridge between `draw_game`'s inlined lock logic and the standalone
`lockStep` automaton: for an enabled sensor with a fresh reading, the pair
`(unlocked[i], lock_start[i])` after the iteration is exactly `lockStep`
applied to the pair before it, with the frame's clamped reading. -/
theorem sensor_step_lock_bridge (st : GameState) (i : Fin 3)
    (raw0 : ℚ) (dt now : ℚ) :
    (⟨(sensor_step st i true (some raw0) dt now).1.unlocked i,
      (sensor_step st i true (some raw0) dt now).1.lock_start i⟩ : LockState)
      = lockStep (st.targets i) st.tolerance st.hold_time
          ⟨st.unlocked i, st.lock_start i⟩ now (min (max raw0 0) st.max_mm) := by
  unfold sensor_step lockStep
  dsimp only
  cases hls : st.lock_start i <;> simp only [hls] <;> split_ifs <;>
    simp_all [Function.update_same]

/-- Concrete game state used by counterexamples and witnesses (the numeric
values are the source's defaults: `max_mm=1200.0, tol=5.0, hold=3.0,
diff=10.0`). -/
def sampleState : GameState where
  max_mm := 1200
  tolerance := 5
  hold_time := 3
  difficulty := 10
  stage := 1
  targets := fun _ => 600
  unlocked := fun _ => false
  lock_start := fun _ => none
  locked_dist := fun _ => none
  timer_start := none
  elapsed_time := 0
  score := 0
  final_beat := false
  smooth_mm := fun _ => 0

/-- C3 (amended): `reset_game` resets `unlocked`, `lock_start` and
`locked_dist` of all three sensors to their initial values, installs the
freshly drawn targets and the stage, resets `elapsed_seconds = 0`,
`score = 0`, `final_beat = false`, and sets `timer_start = now` exactly
when `start_timer` is true (clearing it to `None` otherwise) — but it
leaves the smoothing filter state `smooth_mm` unchanged. -/
theorem C3_reset_game_amended (st : GameState) (newTargets : Fin 3 → ℚ)
    (now : ℚ) (stage_val : ℕ) (start_timer : Bool) :
    (reset_game st newTargets now stage_val start_timer).stage = stage_val
    ∧ (reset_game st newTargets now stage_val start_timer).targets = newTargets
    ∧ (reset_game st newTargets now stage_val start_timer).unlocked
        = (fun _ => false)
    ∧ (reset_game st newTargets now stage_val start_timer).lock_start
        = (fun _ => none)
    ∧ (reset_game st newTargets now stage_val start_timer).locked_dist
        = (fun _ => none)
    ∧ (reset_game st newTargets now stage_val start_timer).timer_start
        = (if start_timer then some now else none)
    ∧ (reset_game st newTargets now stage_val start_timer).elapsed_time = 0
    ∧ (reset_game st newTargets now stage_val start_timer).score = 0
    ∧ (reset_game st newTargets now stage_val start_timer).final_beat = false
    ∧ (reset_game st newTargets now stage_val start_timer).smooth_mm
        = st.smooth_mm :=
  ⟨rfl, rfl, rfl, rfl, rfl, rfl, rfl, rfl, rfl, rfl⟩

/-- C3 counterexample: `reset_game` does not reset the smoothing filter
state.  From a state whose `smooth_mm[0]` is `500`, the reset state still
has `smooth_mm[0] = 500`, not the initial value `0`. -/
theorem C3_reset_game_counterexample :
    (reset_game { sampleState with smooth_mm := fun _ => 500 }
        (fun _ => 300) 7 1 true).smooth_mm 0 = 500
    ∧ (500 : ℚ) ≠ 0 := by
  exact ⟨rfl, by norm_num⟩

/-- C2 (amended): `draw_game` returns `all_unlocked = true` iff every one
of the three sensors is enabled, has an available reading this frame, and
ends the frame locked.  In particular it returns `false` whenever any
sensor — locked or not — is disabled or unavailable. -/
theorem C2_all_unlocked_amended (st : GameState) (en : Fin 3 → Bool)
    (rd : Fin 3 → Option ℚ) (dt now : ℚ) :
    (draw_game st en rd dt now).2 = true ↔
      (∀ i : Fin 3, en i = true ∧ (rd i).isSome = true
        ∧ (draw_game st en rd dt now).1.unlocked i = true) := by
  rcases h0 : sensor_step st 0 (en 0) (rd 0) dt now with ⟨s1, b0⟩
  rcases h1 : sensor_step s1 1 (en 1) (rd 1) dt now with ⟨s2, b1⟩
  rcases h2 : sensor_step s2 2 (en 2) (rd 2) dt now with ⟨s3, b2⟩
  have hD : draw_game st en rd dt now = (s3, b0 && b1 && b2) := by
    unfold draw_game
    rw [h0]; dsimp only; rw [h1]; dsimp only; rw [h2]
  have c0 := sensor_step_contrib st 0 (en 0) (rd 0) dt now
  rw [h0] at c0
  have c1 := sensor_step_contrib s1 1 (en 1) (rd 1) dt now
  rw [h1] at c1
  have c2 := sensor_step_contrib s2 2 (en 2) (rd 2) dt now
  rw [h2] at c2
  have o10 := (sensor_step_other_sensor s1 1 (en 1) (rd 1) dt now 0 (by decide)).1
  rw [h1] at o10
  have o20 := (sensor_step_other_sensor s2 2 (en 2) (rd 2) dt now 0 (by decide)).1
  rw [h2] at o20
  have o21 := (sensor_step_other_sensor s2 2 (en 2) (rd 2) dt now 1 (by decide)).1
  rw [h2] at o21
  dsimp only at c0 c1 c2 o10 o20 o21
  rw [hD]
  dsimp only
  constructor
  · intro h
    rw [Bool.and_eq_true, Bool.and_eq_true] at h
    obtain ⟨⟨hb0, hb1⟩, hb2⟩ := h
    obtain ⟨he0, hr0, hu0⟩ := c0.mp hb0
    obtain ⟨he1, hr1, hu1⟩ := c1.mp hb1
    obtain ⟨he2, hr2, hu2⟩ := c2.mp hb2
    intro i
    fin_cases i
    · exact ⟨he0, hr0, by show s3.unlocked 0 = true; rw [o20, o10]; exact hu0⟩
    · exact ⟨he1, hr1, by show s3.unlocked 1 = true; rw [o21]; exact hu1⟩
    · exact ⟨he2, hr2, by show s3.unlocked 2 = true; exact hu2⟩
  · intro h
    obtain ⟨he0, hr0, hu0⟩ := h 0
    obtain ⟨he1, hr1, hu1⟩ := h 1
    obtain ⟨he2, hr2, hu2⟩ := h 2
    rw [Bool.and_eq_true, Bool.and_eq_true]
    refine ⟨⟨c0.mpr ⟨he0, hr0, ?_⟩, c1.mpr ⟨he1, hr1, ?_⟩⟩, c2.mpr ⟨he2, hr2, hu2⟩⟩
    · rw [← o10, ← o20]; exact hu0
    · rw [← o21]; exact hu1

/-- Game state in which all three sensors are already locked (used by the
C2 counterexample): lock flags set and frozen display values present. -/
def lockedSample : GameState := { sampleState with
  unlocked := fun _ => true,
  locked_dist := fun _ => some 100 }

/-- Enabled flags with sensor 0 switched off and sensors 1, 2 on. -/
def enNoZero : Fin 3 → Bool := fun i => if i = 0 then false else true

/-- C2 counterexample: with sensor 0 disabled and sensors 1 and 2 enabled,
fresh and already locked, every *enabled* sensor is locked after the frame,
yet `draw_game` returns `all_unlocked = false` — the claimed "true iff
every enabled sensor is locked" fails (completion also demands that no
sensor is disabled). -/
theorem C2_all_unlocked_counterexample :
    enNoZero 0 = false
    ∧ enNoZero 1 = true
    ∧ enNoZero 2 = true
    ∧ (draw_game lockedSample enNoZero (fun _ => some 100) 0 0).1.unlocked 1 = true
    ∧ (draw_game lockedSample enNoZero (fun _ => some 100) 0 0).1.unlocked 2 = true
    ∧ (draw_game lockedSample enNoZero (fun _ => some 100) 0 0).2 = false := by
  have hen : ∀ j : Fin 3, lockedSample.unlocked j = true := fun _ => rfl
  rcases h0 : sensor_step lockedSample 0 false (some 100) 0 0 with ⟨s1, b0⟩
  rcases h1 : sensor_step s1 1 true (some 100) 0 0 with ⟨s2, b1⟩
  rcases h2 : sensor_step s2 2 true (some 100) 0 0 with ⟨s3, b2⟩
  have h0' : sensor_step lockedSample 0 false (some 100) 0 0 = (lockedSample, false) := rfl
  have hs1 : s1 = lockedSample := by
    have := h0'.symm.trans h0
    exact ((Prod.mk.injEq _ _ _ _).mp this).1.symm
  have hb0 : b0 = false := by
    have := h0'.symm.trans h0
    exact (((Prod.mk.injEq _ _ _ _).mp this).2).symm
  have hD : draw_game lockedSample enNoZero (fun _ => some 100) 0 0
      = (s3, b0 && b1 && b2) := by
    unfold draw_game
    show ((sensor_step (sensor_step (sensor_step lockedSample 0 false (some 100) 0 0).1
        1 true (some 100) 0 0).1 2 true (some 100) 0 0).1,
      (sensor_step lockedSample 0 false (some 100) 0 0).2
        && (sensor_step (sensor_step lockedSample 0 false (some 100) 0 0).1
              1 true (some 100) 0 0).2
        && (sensor_step (sensor_step (sensor_step lockedSample 0 false (some 100) 0 0).1
              1 true (some 100) 0 0).1 2 true (some 100) 0 0).2) = (s3, b0 && b1 && b2)
    rw [h0]; dsimp only; rw [h1]; dsimp only; rw [h2]
  have hu1s2 : s2.unlocked 1 = true := by
    have := sensor_step_unlocked_mono s1 1 true (some 100) 0 0 (by rw [hs1]; exact hen 1)
    rw [h1] at this; exact this
  have hu1s3 : s3.unlocked 1 = true := by
    have := (sensor_step_other_sensor s2 2 true (some 100) 0 0 1 (by decide)).1
    rw [h2] at this
    dsimp only at this
    rw [this]; exact hu1s2
  have hu2s3 : s3.unlocked 2 = true := by
    have hpre : s2.unlocked 2 = true := by
      have := (sensor_step_other_sensor s1 1 true (some 100) 0 0 2 (by decide)).1
      rw [h1] at this
      dsimp only at this
      rw [this, hs1]; exact hen 2
    have := sensor_step_unlocked_mono s2 2 true (some 100) 0 0 hpre
    rw [h2] at this; exact this
  refine ⟨rfl, rfl, rfl, ?_, ?_, ?_⟩
  · rw [hD]; exact hu1s3
  · rw [hD]; exact hu2s3
  · rw [hD]; dsimp only; rw [hb0]; rfl

/-- C8: within one round, `locked_dist[i]` is set exactly once, on the
frame of sensor `i`'s transition into locked, frozen to that frame's
clamped instantaneous reading; once set it is never changed by a later
`draw_game` frame, and it stays unset on every frame on which the sensor
has not yet locked. -/
theorem C8_locked_dist_set_once (st : GameState) (en : Fin 3 → Bool)
    (rd : Fin 3 → Option ℚ) (dt now : ℚ) (i : Fin 3) :
    (∀ d, st.locked_dist i = some d →
      (draw_game st en rd dt now).1.locked_dist i = some d)
    ∧ (st.unlocked i = false → st.locked_dist i = none →
       (draw_game st en rd dt now).1.unlocked i = true →
       ∃ raw0, rd i = some raw0 ∧
         (draw_game st en rd dt now).1.locked_dist i
           = some (min (max raw0 0) st.max_mm))
    ∧ ((draw_game st en rd dt now).1.unlocked i = false →
       st.locked_dist i = none →
       (draw_game st en rd dt now).1.locked_dist i = none) := by
  rcases h0 : sensor_step st 0 (en 0) (rd 0) dt now with ⟨s1, b0⟩
  rcases h1 : sensor_step s1 1 (en 1) (rd 1) dt now with ⟨s2, b1⟩
  rcases h2 : sensor_step s2 2 (en 2) (rd 2) dt now with ⟨s3, b2⟩
  have hD : (draw_game st en rd dt now).1 = s3 := by
    unfold draw_game
    rw [h0]; dsimp only; rw [h1]; dsimp only; rw [h2]
  rw [hD]
  have o01 := sensor_step_other_sensor st 0 (en 0) (rd 0) dt now 1 (by decide)
  have o02 := sensor_step_other_sensor st 0 (en 0) (rd 0) dt now 2 (by decide)
  have o10 := sensor_step_other_sensor s1 1 (en 1) (rd 1) dt now 0 (by decide)
  have o12 := sensor_step_other_sensor s1 1 (en 1) (rd 1) dt now 2 (by decide)
  have o20 := sensor_step_other_sensor s2 2 (en 2) (rd 2) dt now 0 (by decide)
  have o21 := sensor_step_other_sensor s2 2 (en 2) (rd 2) dt now 1 (by decide)
  rw [h0] at o01 o02; rw [h1] at o10 o12; rw [h2] at o20 o21
  dsimp only at o01 o02 o10 o12 o20 o21
  have m0 := (sensor_step_scalar_fields st 0 (en 0) (rd 0) dt now).1
  have m1 := (sensor_step_scalar_fields s1 1 (en 1) (rd 1) dt now).1
  rw [h0] at m0; rw [h1] at m1
  dsimp only at m0 m1
  have hi : i = 0 ∨ i = 1 ∨ i = 2 := by
    fin_cases i
    exacts [Or.inl rfl, Or.inr (Or.inl rfl), Or.inr (Or.inr rfl)]
  rcases hi with rfl | rfl | rfl
  · refine ⟨?_, ?_, ?_⟩
    · intro d hd
      have p0 := sensor_step_ld_persist st 0 (en 0) (rd 0) dt now d hd
      rw [h0] at p0; dsimp only at p0
      rw [o20.2.2.1, o10.2.2.1]; exact p0
    · intro hu hld hfin
      have hu1 : s1.unlocked 0 = true := by
        rw [← o10.1, ← o20.1]; exact hfin
      have hfr := sensor_step_ld_freeze st 0 (en 0) (rd 0) dt now hu hld
        (by rw [h0]; exact hu1)
      obtain ⟨-, raw0, hr, hld1⟩ := hfr
      rw [h0] at hld1; dsimp only at hld1
      exact ⟨raw0, hr, by rw [o20.2.2.1, o10.2.2.1]; exact hld1⟩
    · intro hfin hld
      have hu1 : s1.unlocked 0 = false := by
        rw [← o10.1, ← o20.1]; exact hfin
      have hn := sensor_step_ld_none st 0 (en 0) (rd 0) dt now hld
        (by rw [h0]; exact hu1)
      rw [h0] at hn; dsimp only at hn
      rw [o20.2.2.1, o10.2.2.1]; exact hn
  · refine ⟨?_, ?_, ?_⟩
    · intro d hd
      have p1 := sensor_step_ld_persist s1 1 (en 1) (rd 1) dt now d
        (by rw [o01.2.2.1]; exact hd)
      rw [h1] at p1; dsimp only at p1
      rw [o21.2.2.1]; exact p1
    · intro hu hld hfin
      have hu1 : s1.unlocked 1 = false := by rw [o01.1]; exact hu
      have hld1 : s1.locked_dist 1 = none := by rw [o01.2.2.1]; exact hld
      have hu2 : s2.unlocked 1 = true := by rw [← o21.1]; exact hfin
      have hfr := sensor_step_ld_freeze s1 1 (en 1) (rd 1) dt now hu1 hld1
        (by rw [h1]; exact hu2)
      obtain ⟨-, raw0, hr, hld2⟩ := hfr
      rw [h1] at hld2; dsimp only at hld2
      rw [m0] at hld2
      exact ⟨raw0, hr, by rw [o21.2.2.1]; exact hld2⟩
    · intro hfin hld
      have hu2 : s2.unlocked 1 = false := by rw [← o21.1]; exact hfin
      have hn := sensor_step_ld_none s1 1 (en 1) (rd 1) dt now
        (by rw [o01.2.2.1]; exact hld) (by rw [h1]; exact hu2)
      rw [h1] at hn; dsimp only at hn
      rw [o21.2.2.1]; exact hn
  · refine ⟨?_, ?_, ?_⟩
    · intro d hd
      have p2 := sensor_step_ld_persist s2 2 (en 2) (rd 2) dt now d
        (by rw [o12.2.2.1, o02.2.2.1]; exact hd)
      rw [h2] at p2; dsimp only at p2
      exact p2
    · intro hu hld hfin
      have hu2 : s2.unlocked 2 = false := by rw [o12.1, o02.1]; exact hu
      have hld2 : s2.locked_dist 2 = none := by rw [o12.2.2.1, o02.2.2.1]; exact hld
      have hfr := sensor_step_ld_freeze s2 2 (en 2) (rd 2) dt now hu2 hld2
        (by rw [h2]; exact hfin)
      obtain ⟨-, raw0, hr, hld3⟩ := hfr
      rw [h2] at hld3; dsimp only at hld3
      rw [m1, m0] at hld3
      exact ⟨raw0, hr, hld3⟩
    · intro hfin hld
      have hn := sensor_step_ld_none s2 2 (en 2) (rd 2) dt now
        (by rw [o12.2.2.1, o02.2.2.1]; exact hld) (by rw [h2]; exact hfin)
      rw [h2] at hn; dsimp only at hn
      exact hn

/-- Game state whose hold timers started at time 0 (used by witnesses: at
`now = 5` with `HOLD_TIME = 3` the hold has elapsed). -/
def holdSample : GameState := { sampleState with lock_start := fun _ => some 0 }

theorem C8_locked_dist_set_once_witness :
    (draw_game lockedSample (fun _ => true) (fun _ => some 100) 0 0).1.locked_dist 0
      = some 100
    ∧ (draw_game holdSample (fun _ => true) (fun _ => some 600) 0 5).1.locked_dist 0
      = some (min (max 600 0) holdSample.max_mm)
    ∧ (draw_game sampleState (fun _ => true) (fun _ => none) 0 0).1.locked_dist 0
      = none := by
  refine ⟨?_, ?_, ?_⟩
  · exact (C8_locked_dist_set_once lockedSample (fun _ => true)
      (fun _ => some 100) 0 0 0).1 100 rfl
  · have hfin : (draw_game holdSample (fun _ => true)
        (fun _ => some 600) 0 5).1.unlocked 0 = true := by
      have e1 : |((600:ℚ) ⊔ 0) ⊓ 1200 - 600| ≤ (5:ℚ) := by norm_num
      have e2 : |((600:ℚ) ⊓ 1200) - 600| ≤ (5:ℚ) := by norm_num
      have e3 : (5:ℚ) - 0 ≥ 3 := by norm_num
      simp +decide [draw_game, sensor_step, holdSample, sampleState,
        Function.update, alpha, e1, e2, e3]
    obtain ⟨raw0, hr, h⟩ := (C8_locked_dist_set_once holdSample (fun _ => true)
      (fun _ => some 600) 0 5 0).2.1 rfl rfl hfin
    have hr' : (600 : ℚ) = raw0 := by
      have := hr
      simp only [Option.some.injEq] at this
      exact this
    rw [← hr'] at h
    exact h
  · exact (C8_locked_dist_set_once sampleState (fun _ => true)
      (fun _ => none) 0 0 0).2.2 rfl rfl

/-- Core induction for C4: whenever the lock automaton, started unlocked
with no hold timer, ends a frame sequence locked, the sequence contains a
continuous run of frames, all within tolerance of the target, whose first
and last frame times are at least `hold` apart (either branch of the
disjunction in the generalized statement; the `lock_start = some t0`
branch only arises for a timer inherited from the start state). -/
theorem runLock_streak (t tl h : ℚ) :
    ∀ (fs : List (ℚ × ℚ)) (st : LockState), st.locked = false →
    (runLock t tl h st fs).locked = true →
    (∃ t0, st.lock_start = some t0 ∧ ∃ j : Fin fs.length,
        (fs.get j).1 - t0 ≥ h
        ∧ ∀ k : Fin fs.length, (k : ℕ) ≤ (j : ℕ) → |(fs.get k).2 - t| ≤ tl)
    ∨ (∃ i j : Fin fs.length, (i : ℕ) ≤ (j : ℕ)
        ∧ (fs.get j).1 - (fs.get i).1 ≥ h
        ∧ ∀ k : Fin fs.length, (i : ℕ) ≤ (k : ℕ) → (k : ℕ) ≤ (j : ℕ) →
            |(fs.get k).2 - t| ≤ tl) := by
  intro fs
  induction fs with
  | nil =>
    intro st h0 hrun
    rw [show runLock t tl h st [] = st from rfl, h0] at hrun
    cases hrun
  | cons f fs ih =>
    rintro ⟨l, ls⟩ h0 hrun
    simp only at h0
    subst h0
    rw [show runLock t tl h ⟨false, ls⟩ (f :: fs)
        = runLock t tl h (lockStep t tl h ⟨false, ls⟩ f.1 f.2) fs from rfl] at hrun
    by_cases hc : |f.2 - t| ≤ tl
    · cases ls with
      | none =>
        have hstep : lockStep t tl h ⟨false, none⟩ f.1 f.2 = ⟨false, some f.1⟩ := by
          simp [lockStep, hc]
        rw [hstep] at hrun
        rcases ih ⟨false, some f.1⟩ rfl hrun with ⟨t0, hsome, j, hj, hk⟩ | ⟨i, j, hij, hj, hk⟩
        · have ht0 : t0 = f.1 := by
            have : some f.1 = some t0 := hsome
            exact (Option.some.inj this).symm
          subst ht0
          right
          refine ⟨⟨0, by simp⟩, ⟨(j : ℕ) + 1, by simp [Nat.succ_lt_succ j.isLt]⟩,
            by simp, ?_, ?_⟩
          · show (fs.get _).1 - f.1 ≥ h
            have : (fs.get ⟨(j : ℕ), j.isLt⟩) = fs.get j := by simp [Fin.eta]
            rw [this]
            exact hj
          · rintro ⟨kv, hkv⟩ _ hku
            cases kv with
            | zero => exact hc
            | succ m =>
              show |(fs.get ⟨m, _⟩).2 - t| ≤ tl
              exact hk ⟨m, by simp only [List.length_cons] at hkv; omega⟩ (by simpa using hku)
        · right
          refine ⟨⟨(i : ℕ) + 1, by simp [Nat.succ_lt_succ i.isLt]⟩,
            ⟨(j : ℕ) + 1, by simp [Nat.succ_lt_succ j.isLt]⟩, by simpa using hij, ?_, ?_⟩
          · show (fs.get ⟨(j : ℕ), _⟩).1 - (fs.get ⟨(i : ℕ), _⟩).1 ≥ h
            simpa [Fin.eta] using hj
          · rintro ⟨kv, hkv⟩ hkl hku
            cases kv with
            | zero => simp at hkl
            | succ m =>
              show |(fs.get ⟨m, _⟩).2 - t| ≤ tl
              exact hk ⟨m, by simp only [List.length_cons] at hkv; omega⟩ (by simpa using hkl) (by simpa using hku)
      | some t0 =>
        by_cases hh : f.1 - t0 ≥ h
        · left
          refine ⟨t0, rfl, ⟨0, by simp⟩, hh, ?_⟩
          rintro ⟨kv, hkv⟩ hku
          cases kv with
          | zero => exact hc
          | succ m => simp at hku
        · have hstep : lockStep t tl h ⟨false, some t0⟩ f.1 f.2 = ⟨false, some t0⟩ := by
            simp [lockStep, hc, hh]
          rw [hstep] at hrun
          rcases ih ⟨false, some t0⟩ rfl hrun with ⟨t0', hsome, j, hj, hk⟩ | ⟨i, j, hij, hj, hk⟩
          · have ht0 : t0' = t0 := by
              have : some t0 = some t0' := hsome
              exact (Option.some.inj this).symm
            rw [ht0] at hj
            left
            refine ⟨t0, rfl, ⟨(j : ℕ) + 1, by simp [Nat.succ_lt_succ j.isLt]⟩, ?_, ?_⟩
            · show (fs.get ⟨(j : ℕ), _⟩).1 - t0 ≥ h
              simpa [Fin.eta] using hj
            · rintro ⟨kv, hkv⟩ hku
              cases kv with
              | zero => exact hc
              | succ m =>
                show |(fs.get ⟨m, _⟩).2 - t| ≤ tl
                exact hk ⟨m, by simp only [List.length_cons] at hkv; omega⟩ (by simpa using hku)
          · right
            refine ⟨⟨(i : ℕ) + 1, by simp [Nat.succ_lt_succ i.isLt]⟩,
              ⟨(j : ℕ) + 1, by simp [Nat.succ_lt_succ j.isLt]⟩, by simpa using hij, ?_, ?_⟩
            · show (fs.get ⟨(j : ℕ), _⟩).1 - (fs.get ⟨(i : ℕ), _⟩).1 ≥ h
              simpa [Fin.eta] using hj
            · rintro ⟨kv, hkv⟩ hkl hku
              cases kv with
              | zero => simp at hkl
              | succ m =>
                show |(fs.get ⟨m, _⟩).2 - t| ≤ tl
                exact hk ⟨m, by simp only [List.length_cons] at hkv; omega⟩ (by simpa using hkl) (by simpa using hku)
    · have hstep : lockStep t tl h ⟨false, ls⟩ f.1 f.2 = ⟨false, none⟩ := by
        simp [lockStep, hc]
      rw [hstep] at hrun
      rcases ih ⟨false, none⟩ rfl hrun with ⟨t0, hsome, _, _, _⟩ | ⟨i, j, hij, hj, hk⟩
      · cases hsome
      · right
        refine ⟨⟨(i : ℕ) + 1, by simp [Nat.succ_lt_succ i.isLt]⟩,
          ⟨(j : ℕ) + 1, by simp [Nat.succ_lt_succ j.isLt]⟩, by simpa using hij, ?_, ?_⟩
        · show (fs.get ⟨(j : ℕ), _⟩).1 - (fs.get ⟨(i : ℕ), _⟩).1 ≥ h
          simpa [Fin.eta] using hj
        · rintro ⟨kv, hkv⟩ hkl hku
          cases kv with
          | zero => simp at hkl
          | succ m =>
            show |(fs.get ⟨m, _⟩).2 - t| ≤ tl
            exact hk ⟨m, by simp only [List.length_cons] at hkv; omega⟩ (by simpa using hkl) (by simpa using hku)

/-- C4: a not-yet-locked sensor transitions to locked only after its
(clamped) reading has stayed within `tol` of the target at every processed
frame of a continuous run spanning at least `hold` seconds; and any
reading outside tolerance clears `lock_start` (and does not lock), so
re-entering tolerance requires a full new hold.  `sensor_step_lock_bridge`
above identifies `lockStep` with the lock logic inlined in `draw_game`. -/
theorem C4_lock_requires_full_hold :
    (∀ (target tol hold : ℚ) (fs : List (ℚ × ℚ)),
      (runLock target tol hold ⟨false, none⟩ fs).locked = true →
      ∃ i j : Fin fs.length, (i : ℕ) ≤ (j : ℕ)
        ∧ (fs.get j).1 - (fs.get i).1 ≥ hold
        ∧ ∀ k : Fin fs.length, (i : ℕ) ≤ (k : ℕ) → (k : ℕ) ≤ (j : ℕ) →
            |(fs.get k).2 - target| ≤ tol)
    ∧ (∀ (target tol hold : ℚ) (st : LockState) (now reading : ℚ),
      st.locked = false → ¬ |reading - target| ≤ tol →
      (lockStep target tol hold st now reading).lock_start = none
      ∧ (lockStep target tol hold st now reading).locked = false) := by
  constructor
  · intro target tol hold fs hrun
    rcases runLock_streak target tol hold fs ⟨false, none⟩ rfl hrun with
      ⟨t0, hsome, _⟩ | hstreak
    · cases hsome
    · exact hstreak
  · rintro target tol hold ⟨l, ls⟩ now reading h0 hc
    simp only at h0
    subst h0
    constructor <;> simp [lockStep, hc]

theorem C4_lock_requires_full_hold_witness :
    (runLock 100 5 3 ⟨false, none⟩ [((0:ℚ), (100:ℚ)), (3, 100)]).locked = true
    ∧ (∃ i j : Fin 2, (i : ℕ) ≤ (j : ℕ)
        ∧ (([((0:ℚ), (100:ℚ)), (3, 100)]).get j).1
            - (([((0:ℚ), (100:ℚ)), (3, 100)]).get i).1 ≥ 3
        ∧ ∀ k : Fin 2, (i : ℕ) ≤ (k : ℕ) → (k : ℕ) ≤ (j : ℕ) →
            |(([((0:ℚ), (100:ℚ)), (3, 100)]).get k).2 - 100| ≤ 5)
    ∧ (lockStep 100 5 3 ⟨false, some 0⟩ 1 200).lock_start = none
    ∧ (lockStep 100 5 3 ⟨false, some 0⟩ 1 200).locked = false := by
  have h1 : (runLock (100:ℚ) 5 3 ⟨false, none⟩
      [((0:ℚ), (100:ℚ)), (3, 100)]).locked = true := by
    norm_num [runLock, lockStep]
  have h2 := C4_lock_requires_full_hold.1 100 5 3 [((0:ℚ), (100:ℚ)), (3, 100)] h1
  have h3 := C4_lock_requires_full_hold.2 100 5 3 ⟨false, some 0⟩ 1 200 rfl
    (by norm_num)
  exact ⟨h1, h2, h3.1, h3.2⟩

/-- Locked state with the round timer running (started at `now = 10`). -/
def timedSample : GameState := { lockedSample with timer_start := some 10 }

/-- Locked state already on the final stage (`max_stage = 3`), with
`timer_start = None` as left behind by an earlier stage advance. -/
def stage3Sample : GameState := { lockedSample with stage := 3 }

/-- C1 divergence witness: when `step` reports `all_unlocked` on a
non-final stage, the code advances the stage and calls
`reset_game(stage_val=stage, start_timer=False)` — but `reset_game` with
`start_timer=False` assigns `timer_start = None`, so the running clock is
*discarded*, not kept.  Consequently, on the final stage the completion
code computes `elapsed_time = 0.0` (the `if timer_start` guard fails) and
`score = int(DIFFICULTY * 1000 / 0.01) = 1000000`, independent of how long
the round took. -/
theorem C1_stage_advance_clears_timer :
    timedSample.timer_start = some 10
    ∧ (game_frame timedSample (fun _ => true) (fun _ => some 100) 0 20
        (fun _ => 50)).stage = 2
    ∧ (game_frame timedSample (fun _ => true) (fun _ => some 100) 0 20
        (fun _ => 50)).timer_start = none
    ∧ (game_frame stage3Sample (fun _ => true) (fun _ => some 100) 0 20
        (fun _ => 50)).final_beat = true
    ∧ (game_frame stage3Sample (fun _ => true) (fun _ => some 100) 0 20
        (fun _ => 50)).elapsed_time = 0
    ∧ (game_frame stage3Sample (fun _ => true) (fun _ => some 100) 0 20
        (fun _ => 50)).score = 1000000 := by
  refine ⟨rfl, rfl, rfl, rfl, rfl, ?_⟩
  show int_trunc ((10 : ℚ) * 1000 / (0 + 1 / 100)) = 1000000
  norm_num [int_trunc]

/-- Parse oracle for the chart-field witness: accepts the three digit
strings of the failing input and rejects `"."` (as `float(".")` does). -/
def pfChart : String → Option ℚ := fun s =>
  if s = "100" then some 100
  else if s = "3" then some 3
  else if s = "10" then some 10
  else none

/-- The four chart fields of the failing input: a valid rod length,
an invalid tolerance text `"."` (typable in the UI, rejected by
`float()`), and valid remaining fields. -/
def valsBad : Fin 4 → String := fun i =>
  if i = 0 then "100" else if i = 1 then "." else if i = 2 then "3" else "10"

/-- C7 divergence witness: applying the chart values
`("100", ".", "3", "10")` from a state with `max_mm = 1200` *changes the
applied configuration* — `max_mm` becomes `100` — because the source
mutates each global before parsing the next field and `except: pass`
swallows the `ValueError` on `"."`.  Yet no new round is created: the lock
state (`unlocked[0]` still `True`), the targets and the remaining config
fields are all left as they were. -/
theorem C7_partial_config_apply_no_reset :
    lockedSample.max_mm = 1200
    ∧ (apply_chart_values pfChart lockedSample valsBad (fun _ => 50) 0).max_mm = 100
    ∧ (apply_chart_values pfChart lockedSample valsBad (fun _ => 50) 0).unlocked 0
        = true
    ∧ (apply_chart_values pfChart lockedSample valsBad (fun _ => 50) 0).targets
        = lockedSample.targets
    ∧ (apply_chart_values pfChart lockedSample valsBad (fun _ => 50) 0).tolerance
        = lockedSample.tolerance
    ∧ (apply_chart_values pfChart lockedSample valsBad (fun _ => 50) 0).locked_dist 0
        = some 100 :=
  ⟨rfl, rfl, rfl, rfl, rfl, rfl⟩

/-- C9 divergence witness: with the slot initially holding
`(dist, last) = (some 1, some 2)` and the writer storing the new pair
`(3, 4)`, the schedule `[w_dist, r_dist, r_last, w_last]` makes the reader
observe the *new* distance `3` paired with the *old* timestamp `2`, and
the schedule `[r_dist, w_dist, w_last, r_last]` makes it observe the *old*
distance `1` paired with the *new* timestamp `4`: the two dictionary
writes of `_reader` (lines 60–61) are not atomic as a pair, so torn pairs
are observable in both directions. -/
theorem C9_torn_pair_observable :
    (runSched 3 4 (concStart (some 1) (some 2))
        [true, false, false, true]).got_dist = some (some 3)
    ∧ (runSched 3 4 (concStart (some 1) (some 2))
        [true, false, false, true]).got_last = some (some 2)
    ∧ (runSched 3 4 (concStart (some 1) (some 2))
        [false, true, true, false]).got_dist = some (some 1)
    ∧ (runSched 3 4 (concStart (some 1) (some 2))
        [false, true, true, false]).got_last = some (some 4)
    ∧ (1 : ℚ) ≠ 3 ∧ (2 : ℚ) ≠ 4 :=
  ⟨rfl, rfl, rfl, rfl, by norm_num, by norm_num⟩

end YBalance
